import Mathlib

/-!
Shallow embedding of owinec (src/src/owinec.py), the server side of a
WS-Management push-subscription event collector.  The HTTP transport is
modelled by explicit request and outcome records; the wsman module
(imported by owinec.py but not part of the snapshot) is modelled from the
spec where its behaviour matters, as marked in the doc comments.  Python
exceptions that escape the handler are modelled as an outcome whose
response field is none: no status line is ever written for such a request.
-/

namespace Owinec

/-- Character set selected for the payload decode step of do_POST. -/
inductive Charset where
  | utf8
  | utf16
deriving DecidableEq

/-- Modelled from the spec: a Fault entry extracted from a wsman envelope
header, as consumed by the error-logging loop of do_POST (lines 116-120). -/
structure Fault where
  machine : String
  code : Int
  text : String
deriving DecidableEq

/-- Modelled from the spec: wsman.Envelope, which is not part of the
snapshot.  It carries the action URI, the nullable resource URI, the
message id, the nullable relates-to, reply-to and operation ids, the
fault entries, and, for Events envelopes, the ordered record payloads. -/
structure Envelope where
  action : String
  resource_uri : Option String
  id : String
  relates_to : Option String
  reply_to : Option String
  operation_id : Option String
  errors : List Fault
  events : List String
deriving DecidableEq

/-- Modelled from the spec: wsman.AckEnvelope, built by the source as
AckEnvelope(envelope.id, envelope.operation_id): a minimal response
envelope whose RelatesTo is the request message id and whose OperationID
is the request operation id. -/
structure AckEnvelope where
  relates_to : String
  operation_id : Option String
deriving DecidableEq

/-- The subscription configuration built by WSManHandler.do_enumerate
(lines 172-185); wsman.SubscriptionEnvelope field names kept.  The float
fields of the source hold only exactly representable values and are
modelled as rationals. -/
structure SubscriptionEnvelope where
  id : String
  name : String
  address : String
  selectors : List (String × String)
  thumbprints : List String
  bookmarks : Bool
  read_existing_events : Bool
  content_format : String
  max_time : ℚ
  connection_retries : Nat
  connection_retries_wait : ℚ
  heartbeat_sec : ℚ
  max_envelope_size : Nat
deriving DecidableEq

/-- Modelled from the spec: wsman.EnumerateResponseEnvelope(subscription,
operation_id, relates_to), plus the to address set from the request
reply-to by do_enumerate (line 187). -/
structure EnumerateResponseEnvelope where
  subscription : SubscriptionEnvelope
  operation_id : Option String
  relates_to : String
  to_addr : Option String
deriving DecidableEq

/-- The structured response an implemented action produces before it is
serialised: the empty string for End and EndSubscription, an enumerate
response, or an acknowledgement. -/
inductive WSResponse where
  | empty
  | enumerate (e : EnumerateResponseEnvelope)
  | ack (a : AckEnvelope)
deriving DecidableEq

/-- One HTTP response as written by the handler: status code, the headers
sent explicitly through send_header, and the body bytes (as text). -/
structure HttpResponse where
  status : Nat
  headers : List (String × String)
  body : String
deriving DecidableEq

/-- Result of dispatching an already-parsed envelope: the HTTP response
(none when an exception escapes instead), the structured response, the
records handed to the sink, and the envelope text logged by the 501
branch. -/
structure DispatchOut where
  response : Option HttpResponse
  wsResponse : Option WSResponse
  sinkCalls : List String
  loggedNotImplemented : Option String
deriving DecidableEq

/-- Outcome of one POST request: the response written (none when an
uncaught exception aborts the worker before a status line is sent), the
structured response, whether the body was read, whether envelope parsing
was attempted, the records handed to the sink, the charset used to decode
the payload (none when no decode happened), and the envelope text logged
by the 501 branch. -/
structure POSTOutcome where
  response : Option HttpResponse
  wsResponse : Option WSResponse
  bodyRead : Bool
  parseAttempted : Bool
  sinkCalls : List String
  usedCharset : Option Charset
  loggedNotImplemented : Option String
deriving DecidableEq

/-- One inbound POST as seen by the handler: whether the connection is an
ssl.SSLSocket, the raw header values consumed, and the body bytes. -/
structure Request where
  tls : Bool
  contentLength : Option String
  contentType : Option String
  authorization : Option String
  body : List Nat
deriving DecidableEq

/-- The WWW-Authenticate value sent on every explicit POST-path header
(lines 85, 99, 138, 147). -/
def mutualAuthURI : String :=
  "http://schemas.dmtf.org/wbem/wsman/1/wsman/secprofile/https/mutual"

/-- Modelled from the spec: wsman.ACTION_ENUMERATE; the wsman constants
are not in the snapshot, the standard WS-Management URIs are used and the
embedding relies only on their being pairwise distinct. -/
def ACTION_ENUMERATE : String :=
  "http://schemas.xmlsoap.org/ws/2004/09/enumeration/Enumerate"

/-- Modelled from the spec: wsman.ACTION_HEARTBEAT. -/
def ACTION_HEARTBEAT : String :=
  "http://schemas.dmtf.org/wbem/wsman/1/wsman/Heartbeat"

/-- Modelled from the spec: wsman.ACTION_EVENTS. -/
def ACTION_EVENTS : String :=
  "http://schemas.dmtf.org/wbem/wsman/1/wsman/Events"

/-- Modelled from the spec: wsman.ACTION_END. -/
def ACTION_END : String :=
  "http://schemas.microsoft.com/wbem/wsman/1/wsman/End"

/-- Modelled from the spec: wsman.ACTION_END_SUBSCRIPTION. -/
def ACTION_END_SUBSCRIPTION : String :=
  "http://schemas.xmlsoap.org/ws/2004/09/eventing/SubscriptionEnd"

/-- Modelled from the spec: wsman.RESOURCE_URI_SUBSCRIPTION. -/
def RESOURCE_URI_SUBSCRIPTION : String :=
  "http://schemas.microsoft.com/wbem/wsman/1/SubscriptionManager/Subscription"

/-- Modelled from the spec: wsman.RESOURCE_URI_FULL_DUPLEX. -/
def RESOURCE_URI_FULL_DUPLEX : String :=
  "http://schemas.microsoft.com/wbem/wsman/1/wsman/FullDuplex"

/-- Strip leading and trailing whitespace from a character list, as the
Python strip method does (ASCII whitespace modelled). -/
def trimChars (l : List Char) : List Char :=
  ((l.dropWhile Char.isWhitespace).reverse.dropWhile Char.isWhitespace).reverse

/-- Split a character list on the semicolon separator, as the Python
split method with a one-character separator does: the empty input gives
one empty group, and empty groups are kept. -/
def splitOnSemi : List Char → List (List Char)
  | [] => [[]]
  | c :: rest =>
    if c = ';' then [] :: splitOnSemi rest
    else
      match splitOnSemi rest with
      | [] => [[c]]
      | g :: gs => (c :: g) :: gs

/-- Value of a list of ASCII decimal digits. -/
def natOfDigits (l : List Char) : Nat :=
  l.foldl (fun a c => a * 10 + (c.toNat - 48)) 0

/-- Digit-and-underscore shape accepted by the Python int constructor
after sign and whitespace handling: every character is an ASCII digit or
an underscore, and every underscore is followed by a digit. -/
def underscoresOk : List Char → Bool
  | [] => true
  | ['_'] => false
  | '_' :: c :: rest => c.isDigit && underscoresOk (c :: rest)
  | c :: rest => c.isDigit && underscoresOk rest

/-- Digit run accepted by the Python int constructor: nonempty, starts
with a digit, underscores only between digits. -/
def pyDigits (l : List Char) : Option Nat :=
  match l with
  | [] => none
  | c :: _ =>
    if c == '_' then none
    else if underscoresOk l then some (natOfDigits (l.filter (fun x => x != '_')))
    else none

/-- The Python built-in int applied to a string, as used on line 90:
surrounding whitespace is stripped, an optional sign is read, and the
rest must be a digit run (underscores allowed between digits).  ASCII
digits and whitespace are modelled; none means int raised ValueError. -/
def pythonInt (s : String) : Option Int :=
  match trimChars s.toList with
  | '+' :: rest => (pyDigits rest).map Int.ofNat
  | '-' :: rest => (pyDigits rest).map (fun n => -(Int.ofNat n : Int))
  | cs => (pyDigits cs).map Int.ofNat

/-- Line 90: content_length is int(headers['Content-Length']) when the
header is present, else 0; error means the int call raised. -/
def contentLengthVal (h : Option String) : Except Unit Int :=
  match h with
  | none => Except.ok 0
  | some s =>
    match pythonInt s with
    | none => Except.error ()
    | some n => Except.ok n

/-- Lines 91-94: the charset is taken from the second semicolon-separated
component of the Content-Type header (missing header behaves as the empty
string), provided that component, stripped, starts with the literal
charset= token. -/
def parseCharset (ct : Option String) : Option String :=
  match splitOnSemi (ct.getD "").toList with
  | _ :: p :: _ =>
    if "charset=".toList.isPrefixOf (trimChars p) then
      some (List.asString ((trimChars p).drop 8))
    else none
  | _ => none

/-- Modelled from the spec: the value of the Content-Type charset
parameter in the usual MIME sense, for comparison with parseCharset: the
first semicolon-separated parameter after the media type whose stripped
form starts with charset=.  Used only to state the refinement claim about
charset selection. -/
def charsetParam_spec (ct : Option String) : Option String :=
  ((splitOnSemi (ct.getD "").toList).tail).findSome? fun p =>
    if "charset=".toList.isPrefixOf (trimChars p) then
      some (List.asString ((trimChars p).drop 8))
    else none

/-- Lines 107-110: the payload is decoded as UTF-16 exactly when the
extracted charset equals the literal UTF-16, else as UTF-8. -/
def selectedCharset (r : Request) : Charset :=
  if parseCharset r.contentType = some "UTF-16" then Charset.utf16 else Charset.utf8

/-- The subscription built by WSManHandler.do_enumerate, lines 172-185. -/
def theSubscription : SubscriptionEnvelope :=
  { id := "subscription2"
    name := "Test Subscription 2"
    address := "https://10.0.1.170:5986/owinec/subscriptions/s2"
    selectors :=
      [("Security", "*[System[(Level=1 or Level=2 or Level=3 or Level=4 or Level=0 or Level=5)]]"),
       ("System", "*[System[(Level=1 or Level=2 or Level=3 or Level=4 or Level=0 or Level=5)]]")]
    thumbprints := ["663FC825E1657B6361DB624E549EF8EA839684A0"]
    bookmarks := false
    read_existing_events := true
    content_format := "RenderedText"
    max_time := 0
    connection_retries := 60
    connection_retries_wait := 10
    heartbeat_sec := 60
    max_envelope_size := 10 * 1024 * 1024 }

/-- WSManHandler.do_enumerate, lines 171-188: wrap the subscription with
the request correlation ids and the request reply-to address. -/
def do_enumerate (env : Envelope) : EnumerateResponseEnvelope :=
  { subscription := theSubscription
    operation_id := env.operation_id
    relates_to := env.id
    to_addr := env.reply_to }

/-- WSManHandler.do_heartbeat, lines 190-192. -/
def do_heartbeat (env : Envelope) : AckEnvelope :=
  { relates_to := env.id, operation_id := env.operation_id }

/-- The ingest loop of WSManHandler.do_events (lines 195-196): each record
is handed to the sink in order; a sink failure raises, so records after
the first rejected one are never forwarded.  Returns the records actually
handed to the sink and whether the whole batch succeeded. -/
def forwardEvents (sink : String → Bool) : List String → List String × Bool
  | [] => ([], true)
  | e :: rest =>
    if sink e then
      (e :: (forwardEvents sink rest).1, (forwardEvents sink rest).2)
    else ([e], false)

/-- WSManHandler.do_events, lines 194-199: forward the batch, then build
the acknowledgement only when every record was accepted.  The sink
collaborator (event_logger) is external; modelled from the spec as an
append that may fail, where a failure aborts the batch by raising. -/
def do_events (sink : String → Bool) (env : Envelope) : List String × Option AckEnvelope :=
  ((forwardEvents sink env.events).1,
   if (forwardEvents sink env.events).2 then
     some { relates_to := env.id, operation_id := env.operation_id }
   else none)

/-- The serialised text of a structured response: End and EndSubscription
answer with the literal empty string (lines 124, 131); the wsman dump
methods for the other envelopes are not in the snapshot and are passed in
as functions. -/
def respText (dumpE : EnumerateResponseEnvelope → String)
    (dumpA : AckEnvelope → String) : WSResponse → String
  | WSResponse.empty => ""
  | WSResponse.enumerate e => dumpE e
  | WSResponse.ack a => dumpA a

/-- Headers sent on the 200 path, lines 147-150. -/
def soapHeaders200 (body : String) : List (String × String) :=
  [("WWW-Authenticate", mutualAuthURI),
   ("Content-Type", "application/soap+xml;charset=UTF-8"),
   ("Content-Length", toString body.utf8ByteSize),
   ("Connection", "Keep-Alive")]

/-- The 200 reply built on lines 143-152 for a handled action. -/
def ok200 (dumpE : EnumerateResponseEnvelope → String) (dumpA : AckEnvelope → String)
    (w : WSResponse) (calls : List String) : DispatchOut :=
  { response := some
      { status := 200
        headers := soapHeaders200 (respText dumpE dumpA w)
        body := respText dumpE dumpA w }
    wsResponse := some w
    sinkCalls := calls
    loggedNotImplemented := none }

/-- The dispatch chain of do_POST, lines 122-141, keyed on the pair of
action and resource URI in source order; the final branch answers 501 and
logs the full envelope text. -/
def handleEnvelope (dumpE : EnumerateResponseEnvelope → String)
    (dumpA : AckEnvelope → String) (sink : String → Bool)
    (text : String) (env : Envelope) : DispatchOut :=
  if env.action = ACTION_END ∧ env.resource_uri = some RESOURCE_URI_FULL_DUPLEX then
    ok200 dumpE dumpA WSResponse.empty []
  else if env.action = ACTION_ENUMERATE ∧ env.resource_uri = some RESOURCE_URI_SUBSCRIPTION then
    ok200 dumpE dumpA (WSResponse.enumerate (do_enumerate env)) []
  else if env.action = ACTION_HEARTBEAT ∧ env.resource_uri = none then
    ok200 dumpE dumpA (WSResponse.ack (do_heartbeat env)) []
  else if env.action = ACTION_END_SUBSCRIPTION ∧ env.resource_uri = none then
    ok200 dumpE dumpA WSResponse.empty []
  else if env.action = ACTION_EVENTS ∧ env.resource_uri = none then
    match do_events sink env with
    | (calls, some a) => ok200 dumpE dumpA (WSResponse.ack a) calls
    | (calls, none) =>
      { response := none, wsResponse := none, sinkCalls := calls,
        loggedNotImplemented := none }
  else
    { response := some
        { status := 501
          headers := [("WWW-Authenticate", mutualAuthURI)]
          body := "Not Implemented" }
      wsResponse := none
      sinkCalls := []
      loggedNotImplemented := some text }

/-- SoapHandler.do_GET, lines 61-65: 405 with a plain-text body and no
explicit headers. -/
def do_GET : HttpResponse :=
  { status := 405, headers := [], body := "Method Not Allowed" }

/-- SoapHandler.do_PUT, lines 67-71: 405 with a plain-text body and no
explicit headers. -/
def do_PUT : HttpResponse :=
  { status := 405, headers := [], body := "Method Not Allowed" }

/-- The 401 reply of lines 84-88: sent on any non-TLS connection before
the body is read or parsed. -/
def unauthorizedOutcome : POSTOutcome :=
  { response := some
      { status := 401
        headers := [("WWW-Authenticate", mutualAuthURI)]
        body := "Unauthorized - Unsupported authentication protocol - Use https instead" }
    wsResponse := none
    bodyRead := false
    parseAttempted := false
    sinkCalls := []
    usedCharset := none
    loggedNotImplemented := none }

/-- The 411 reply of lines 96-104: Content-Length missing or zero. -/
def lengthRequiredOutcome : POSTOutcome :=
  { response := some
      { status := 411
        headers := [("WWW-Authenticate", mutualAuthURI),
                    ("Content-Length", "0"),
                    ("Connection", "close")]
        body := "Length Required - This request requires a payload" }
    wsResponse := none
    bodyRead := false
    parseAttempted := false
    sinkCalls := []
    usedCharset := none
    loggedNotImplemented := none }

/-- Line 90 raising ValueError: the int call on a present but unparsable
Content-Length aborts the worker before any status line is written. -/
def badLengthOutcome : POSTOutcome :=
  { response := none, wsResponse := none, bodyRead := false,
    parseAttempted := false, sinkCalls := [], usedCharset := none,
    loggedNotImplemented := none }

/-- Lines 107-110 raising UnicodeDecodeError: the body was read and a
decode was attempted with the selected charset; no status line written. -/
def decodeFailOutcome (cs : Charset) : POSTOutcome :=
  { response := none, wsResponse := none, bodyRead := true,
    parseAttempted := false, sinkCalls := [], usedCharset := some cs,
    loggedNotImplemented := none }

/-- Line 114 raising (ET.fromstring, or wsman.Envelope.load on an
unparsable envelope): parsing was attempted and failed; no status line
written. -/
def parseFailOutcome (cs : Charset) : POSTOutcome :=
  { response := none, wsResponse := none, bodyRead := true,
    parseAttempted := true, sinkCalls := [], usedCharset := some cs,
    loggedNotImplemented := none }

/-- Assemble the outcome of a fully dispatched request. -/
def mkDispatchOutcome (cs : Charset) (d : DispatchOut) : POSTOutcome :=
  { response := d.response
    wsResponse := d.wsResponse
    bodyRead := true
    parseAttempted := true
    sinkCalls := d.sinkCalls
    usedCharset := some cs
    loggedNotImplemented := d.loggedNotImplemented }

/-- SoapHandler.do_POST, lines 73-152.  The decode of the payload bytes,
the envelope parse (ET.fromstring plus wsman.Envelope.load, with none for
a raised exception) and the wsman dump serialisers are explicit function
arguments, as is the sink.  The source reads exactly content_length bytes
from the connection (line 106). -/
def do_POST (decode : Charset → List Nat → Option String)
    (parse : String → Option Envelope)
    (dumpE : EnumerateResponseEnvelope → String)
    (dumpA : AckEnvelope → String)
    (sink : String → Bool)
    (r : Request) : POSTOutcome :=
  if r.tls then
    match contentLengthVal r.contentLength with
    | Except.error _ => badLengthOutcome
    | Except.ok n =>
      if n = 0 then lengthRequiredOutcome
      else
        match decode (selectedCharset r) (r.body.take n.toNat) with
        | none => decodeFailOutcome (selectedCharset r)
        | some text =>
          match parse text with
          | none => parseFailOutcome (selectedCharset r)
          | some env => mkDispatchOutcome (selectedCharset r) (handleEnvelope dumpE dumpA sink text env)
  else unauthorizedOutcome

/-- Concrete heartbeat envelope used to evaluate the theorems. -/
def envHeartbeat0 : Envelope :=
  { action := ACTION_HEARTBEAT, resource_uri := none, id := "uuid:m1",
    relates_to := none, reply_to := none, operation_id := some "uuid:o1",
    errors := [], events := [] }

/-- Concrete events envelope with two records. -/
def envEvents0 : Envelope :=
  { action := ACTION_EVENTS, resource_uri := none, id := "uuid:m2",
    relates_to := none, reply_to := none, operation_id := some "uuid:o2",
    errors := [], events := ["<Event>A</Event>", "<Event>B</Event>"] }

/-- Concrete enumerate envelope. -/
def envEnum0 : Envelope :=
  { action := ACTION_ENUMERATE, resource_uri := some RESOURCE_URI_SUBSCRIPTION,
    id := "uuid:m3", relates_to := none, reply_to := some "http://device/reply",
    operation_id := some "uuid:o3", errors := [], events := [] }

/-- Concrete envelope whose action and resource pair is not in the
dispatch table. -/
def envUnknown0 : Envelope :=
  { action := "urn:unknown-action", resource_uri := none, id := "uuid:m4",
    relates_to := none, reply_to := none, operation_id := none,
    errors := [], events := [] }

/-- Concrete authorized request with a parsable nonzero Content-Length. -/
def req0 : Request :=
  { tls := true, contentLength := some "4", contentType := none,
    authorization := none, body := [60, 97, 47, 62] }

/-- Concrete non-TLS request carrying an Authorization header. -/
def reqNoTls0 : Request :=
  { tls := false, contentLength := some "4", contentType := none,
    authorization := some "Basic Zm9vOmJhcg==", body := [60, 97, 47, 62] }

/-- Concrete authorized request with no Content-Length header. -/
def reqNoLen0 : Request :=
  { tls := true, contentLength := none, contentType := none,
    authorization := none, body := [] }

/-- Concrete authorized request whose Content-Length is unparsable. -/
def reqBadLen0 : Request :=
  { tls := true, contentLength := some "abc", contentType := none,
    authorization := none, body := [60, 97, 47, 62] }

/-- Concrete authorized request whose Content-Type carries the charset
parameter in the third semicolon-separated component. -/
def reqCharset0 : Request :=
  { tls := true, contentLength := some "4",
    contentType := some "application/soap+xml;foo=bar;charset=UTF-16",
    authorization := none, body := [60, 97, 47, 62] }

/-- Trivial decode function used by the witnesses. -/
def dec0 : Charset → List Nat → Option String := fun _ _ => some "text0"

/-- Parse function returning the heartbeat envelope. -/
def parseHeartbeat0 : String → Option Envelope := fun _ => some envHeartbeat0

/-- Parse function returning the events envelope. -/
def parseEvents0 : String → Option Envelope := fun _ => some envEvents0

/-- Parse function returning the enumerate envelope. -/
def parseEnum0 : String → Option Envelope := fun _ => some envEnum0

/-- Parse function returning the unroutable envelope. -/
def parseUnknown0 : String → Option Envelope := fun _ => some envUnknown0

/-- Parse function modelling a raised parse error on any input. -/
def parseNone0 : String → Option Envelope := fun _ => none

/-- Trivial enumerate serialiser for the witnesses. -/
def dumpE0 : EnumerateResponseEnvelope → String := fun _ => "enum-xml"

/-- Trivial acknowledgement serialiser for the witnesses. -/
def dumpA0 : AckEnvelope → String := fun _ => "ack-xml"

/-- Sink accepting every record. -/
def sinkTrue : String → Bool := fun _ => true

/-- Sink rejecting exactly the second concrete record. -/
def sinkRejectB : String → Bool := fun e => e != "<Event>B</Event>"

theorem do_POST_dispatch (decode : Charset → List Nat → Option String)
    (parse : String → Option Envelope)
    (dumpE : EnumerateResponseEnvelope → String) (dumpA : AckEnvelope → String)
    (sink : String → Bool) (r : Request) (n : Int) (text : String) (env : Envelope)
    (htls : r.tls = true)
    (hcl : contentLengthVal r.contentLength = Except.ok n)
    (hn : n ≠ 0)
    (hdec : decode (selectedCharset r) (r.body.take n.toNat) = some text)
    (hparse : parse text = some env) :
    do_POST decode parse dumpE dumpA sink r =
      mkDispatchOutcome (selectedCharset r) (handleEnvelope dumpE dumpA sink text env) := by
  unfold do_POST
  rw [htls, hcl]
  simp [hn, hdec, hparse]

theorem forwardEvents_all (sink : String → Bool) (l : List String)
    (h : ∀ e ∈ l, sink e = true) : forwardEvents sink l = (l, true) := by
  induction l with
  | nil => rfl
  | cons e rest ih =>
    have he : sink e = true := h e (List.mem_cons_self e rest)
    have hrest : ∀ x ∈ rest, sink x = true := fun x hx => h x (List.mem_cons_of_mem e hx)
    simp [forwardEvents, he, ih hrest]

theorem forwardEvents_fail (sink : String → Bool) (l : List String)
    (h : ∃ e ∈ l, sink e = false) : (forwardEvents sink l).2 = false := by
  induction l with
  | nil => simp at h
  | cons e rest ih =>
    rcases h with ⟨x, hx, hxf⟩
    rcases List.mem_cons.mp hx with hxe | hxr
    · subst hxe
      by_cases he : sink x = true
      · rw [he] at hxf; exact absurd hxf (by simp)
      · simp [forwardEvents, he]
    · by_cases he : sink e = true
      · simp [forwardEvents, he]
        exact ih ⟨x, hxr, hxf⟩
      · simp [forwardEvents, he]

theorem handleEnvelope_heartbeat (dumpE : EnumerateResponseEnvelope → String)
    (dumpA : AckEnvelope → String) (sink : String → Bool) (text : String) (env : Envelope)
    (ha : env.action = ACTION_HEARTBEAT) (hr : env.resource_uri = none) :
    handleEnvelope dumpE dumpA sink text env =
      ok200 dumpE dumpA (WSResponse.ack (do_heartbeat env)) [] := by
  have h1 : ¬(env.action = ACTION_END ∧ env.resource_uri = some RESOURCE_URI_FULL_DUPLEX) := by
    rintro ⟨hA, _⟩
    rw [ha] at hA
    exact absurd hA (by decide)
  have h2 : ¬(env.action = ACTION_ENUMERATE ∧ env.resource_uri = some RESOURCE_URI_SUBSCRIPTION) := by
    rintro ⟨hA, _⟩
    rw [ha] at hA
    exact absurd hA (by decide)
  rw [handleEnvelope, if_neg h1, if_neg h2, if_pos ⟨ha, hr⟩]

theorem handleEnvelope_enum (dumpE : EnumerateResponseEnvelope → String)
    (dumpA : AckEnvelope → String) (sink : String → Bool) (text : String) (env : Envelope)
    (ha : env.action = ACTION_ENUMERATE) (hr : env.resource_uri = some RESOURCE_URI_SUBSCRIPTION) :
    handleEnvelope dumpE dumpA sink text env =
      ok200 dumpE dumpA (WSResponse.enumerate (do_enumerate env)) [] := by
  have h1 : ¬(env.action = ACTION_END ∧ env.resource_uri = some RESOURCE_URI_FULL_DUPLEX) := by
    rintro ⟨hA, _⟩
    rw [ha] at hA
    exact absurd hA (by decide)
  rw [handleEnvelope, if_neg h1, if_pos ⟨ha, hr⟩]

theorem handleEnvelope_events (dumpE : EnumerateResponseEnvelope → String)
    (dumpA : AckEnvelope → String) (sink : String → Bool) (text : String) (env : Envelope)
    (ha : env.action = ACTION_EVENTS) (hr : env.resource_uri = none) :
    handleEnvelope dumpE dumpA sink text env =
      (match do_events sink env with
       | (calls, some a) => ok200 dumpE dumpA (WSResponse.ack a) calls
       | (calls, none) =>
         { response := none, wsResponse := none, sinkCalls := calls,
           loggedNotImplemented := none }) := by
  have h1 : ¬(env.action = ACTION_END ∧ env.resource_uri = some RESOURCE_URI_FULL_DUPLEX) := by
    rintro ⟨hA, _⟩
    rw [ha] at hA
    exact absurd hA (by decide)
  have h2 : ¬(env.action = ACTION_ENUMERATE ∧ env.resource_uri = some RESOURCE_URI_SUBSCRIPTION) := by
    rintro ⟨hA, _⟩
    rw [ha] at hA
    exact absurd hA (by decide)
  have h3 : ¬(env.action = ACTION_HEARTBEAT ∧ env.resource_uri = none) := by
    rintro ⟨hA, _⟩
    rw [ha] at hA
    exact absurd hA (by decide)
  have h4 : ¬(env.action = ACTION_END_SUBSCRIPTION ∧ env.resource_uri = none) := by
    rintro ⟨hA, _⟩
    rw [ha] at hA
    exact absurd hA (by decide)
  rw [handleEnvelope, if_neg h1, if_neg h2, if_neg h3, if_neg h4, if_pos ⟨ha, hr⟩]

theorem handleEnvelope_end (dumpE : EnumerateResponseEnvelope → String)
    (dumpA : AckEnvelope → String) (sink : String → Bool) (text : String) (env : Envelope)
    (ha : env.action = ACTION_END) (hr : env.resource_uri = some RESOURCE_URI_FULL_DUPLEX) :
    handleEnvelope dumpE dumpA sink text env = ok200 dumpE dumpA WSResponse.empty [] := by
  rw [handleEnvelope, if_pos ⟨ha, hr⟩]

theorem handleEnvelope_endsub (dumpE : EnumerateResponseEnvelope → String)
    (dumpA : AckEnvelope → String) (sink : String → Bool) (text : String) (env : Envelope)
    (ha : env.action = ACTION_END_SUBSCRIPTION) (hr : env.resource_uri = none) :
    handleEnvelope dumpE dumpA sink text env = ok200 dumpE dumpA WSResponse.empty [] := by
  have h1 : ¬(env.action = ACTION_END ∧ env.resource_uri = some RESOURCE_URI_FULL_DUPLEX) := by
    rintro ⟨hA, _⟩
    rw [ha] at hA
    exact absurd hA (by decide)
  have h2 : ¬(env.action = ACTION_ENUMERATE ∧ env.resource_uri = some RESOURCE_URI_SUBSCRIPTION) := by
    rintro ⟨hA, _⟩
    rw [ha] at hA
    exact absurd hA (by decide)
  have h3 : ¬(env.action = ACTION_HEARTBEAT ∧ env.resource_uri = none) := by
    rintro ⟨hA, _⟩
    rw [ha] at hA
    exact absurd hA (by decide)
  rw [handleEnvelope, if_neg h1, if_neg h2, if_neg h3, if_pos ⟨ha, hr⟩]

theorem handleEnvelope_default (dumpE : EnumerateResponseEnvelope → String)
    (dumpA : AckEnvelope → String) (sink : String → Bool) (text : String) (env : Envelope)
    (h1 : ¬(env.action = ACTION_END ∧ env.resource_uri = some RESOURCE_URI_FULL_DUPLEX))
    (h2 : ¬(env.action = ACTION_ENUMERATE ∧ env.resource_uri = some RESOURCE_URI_SUBSCRIPTION))
    (h3 : ¬(env.action = ACTION_HEARTBEAT ∧ env.resource_uri = none))
    (h4 : ¬(env.action = ACTION_END_SUBSCRIPTION ∧ env.resource_uri = none))
    (h5 : ¬(env.action = ACTION_EVENTS ∧ env.resource_uri = none)) :
    handleEnvelope dumpE dumpA sink text env =
      { response := some
          { status := 501
            headers := [("WWW-Authenticate", mutualAuthURI)]
            body := "Not Implemented" }
        wsResponse := none
        sinkCalls := []
        loggedNotImplemented := some text } := by
  rw [handleEnvelope, if_neg h1, if_neg h2, if_neg h3, if_neg h4, if_neg h5]

/-- C1: for every POST on a connection that is not TLS, regardless of the
Authorization header, the server answers 401 with the mutual-TLS
WWW-Authenticate header, and neither the body read nor envelope parsing
ever happens for that request. -/
theorem C1_nonTLS_unauthorized (decode : Charset → List Nat → Option String)
    (parse : String → Option Envelope)
    (dumpE : EnumerateResponseEnvelope → String) (dumpA : AckEnvelope → String)
    (sink : String → Bool) (r : Request) (h : r.tls = false) :
    (do_POST decode parse dumpE dumpA sink r).response =
      some { status := 401
             headers := [("WWW-Authenticate", mutualAuthURI)]
             body := "Unauthorized - Unsupported authentication protocol - Use https instead" } ∧
    (do_POST decode parse dumpE dumpA sink r).bodyRead = false ∧
    (do_POST decode parse dumpE dumpA sink r).parseAttempted = false := by
  unfold do_POST
  rw [h]
  simp [unauthorizedOutcome]

/-- C1 witness: a concrete non-TLS request with an Authorization header. -/
theorem C1_nonTLS_unauthorized_witness :
    (do_POST dec0 parseHeartbeat0 dumpE0 dumpA0 sinkTrue reqNoTls0).response =
      some { status := 401
             headers := [("WWW-Authenticate", mutualAuthURI)]
             body := "Unauthorized - Unsupported authentication protocol - Use https instead" } ∧
    (do_POST dec0 parseHeartbeat0 dumpE0 dumpA0 sinkTrue reqNoTls0).bodyRead = false ∧
    (do_POST dec0 parseHeartbeat0 dumpE0 dumpA0 sinkTrue reqNoTls0).parseAttempted = false :=
  C1_nonTLS_unauthorized dec0 parseHeartbeat0 dumpE0 dumpA0 sinkTrue reqNoTls0 rfl

/-- C6: for every POST that passes the TLS gate with a missing
Content-Length header or one whose value parses to zero, the server
answers 411 Length Required with a Connection close header. -/
theorem C6_length_required (decode : Charset → List Nat → Option String)
    (parse : String → Option Envelope)
    (dumpE : EnumerateResponseEnvelope → String) (dumpA : AckEnvelope → String)
    (sink : String → Bool) (r : Request) (htls : r.tls = true)
    (h : r.contentLength = none ∨ ∃ s, r.contentLength = some s ∧ pythonInt s = some 0) :
    (do_POST decode parse dumpE dumpA sink r).response =
      some { status := 411
             headers := [("WWW-Authenticate", mutualAuthURI),
                         ("Content-Length", "0"),
                         ("Connection", "close")]
             body := "Length Required - This request requires a payload" } := by
  have hcl : contentLengthVal r.contentLength = Except.ok 0 := by
    rcases h with hnone | ⟨s, hs, h0⟩
    · rw [hnone]; rfl
    · rw [hs]
      simp [contentLengthVal, h0]
  unfold do_POST
  rw [htls, hcl]
  simp [lengthRequiredOutcome]

/-- C6 witness: a concrete TLS request with no Content-Length header. -/
theorem C6_length_required_witness :
    (do_POST dec0 parseHeartbeat0 dumpE0 dumpA0 sinkTrue reqNoLen0).response =
      some { status := 411
             headers := [("WWW-Authenticate", mutualAuthURI),
                         ("Content-Length", "0"),
                         ("Connection", "close")]
             body := "Length Required - This request requires a payload" } :=
  C6_length_required dec0 parseHeartbeat0 dumpE0 dumpA0 sinkTrue reqNoLen0 rfl (Or.inl rfl)

/-- C10: for every TLS POST whose Content-Length header is present but
not parseable as an integer, the int conversion raises before any status
line is sent, so no response of any kind is produced. -/
theorem C10_bad_content_length (decode : Charset → List Nat → Option String)
    (parse : String → Option Envelope)
    (dumpE : EnumerateResponseEnvelope → String) (dumpA : AckEnvelope → String)
    (sink : String → Bool) (r : Request) (s : String)
    (htls : r.tls = true) (hs : r.contentLength = some s) (hbad : pythonInt s = none) :
    (do_POST decode parse dumpE dumpA sink r).response = none ∧
    (do_POST decode parse dumpE dumpA sink r).bodyRead = false ∧
    (do_POST decode parse dumpE dumpA sink r).parseAttempted = false := by
  have hcl : contentLengthVal r.contentLength = Except.error () := by
    rw [hs]
    simp [contentLengthVal, hbad]
  unfold do_POST
  rw [htls, hcl]
  simp [badLengthOutcome]

/-- C10 witness: a concrete TLS request whose Content-Length is abc. -/
theorem C10_bad_content_length_witness :
    (do_POST dec0 parseHeartbeat0 dumpE0 dumpA0 sinkTrue reqBadLen0).response = none ∧
    (do_POST dec0 parseHeartbeat0 dumpE0 dumpA0 sinkTrue reqBadLen0).bodyRead = false ∧
    (do_POST dec0 parseHeartbeat0 dumpE0 dumpA0 sinkTrue reqBadLen0).parseAttempted = false :=
  C10_bad_content_length dec0 parseHeartbeat0 dumpE0 dumpA0 sinkTrue reqBadLen0 "abc" rfl rfl rfl

/-- C4 (code bug evaluation): on an authorized POST whose body fails to
parse as an envelope, the parse exception escapes the handler: parsing
was attempted, yet no response at all is written, contradicting the
required 4xx mapping. -/
theorem C4_malformed_xml_no_response :
    (do_POST dec0 parseNone0 dumpE0 dumpA0 sinkTrue req0).response = none ∧
    (do_POST dec0 parseNone0 dumpE0 dumpA0 sinkTrue req0).parseAttempted = true := by
  constructor <;> rfl

/-- C2: for an Events envelope whose records the sink all accepts, the
handler forwards exactly those records in order and answers 200 with a
single acknowledgement; if the sink rejects any record, no response is
written at the HTTP level and no acknowledgement is produced. -/
theorem C2_events_atomic_ack (decode : Charset → List Nat → Option String)
    (parse : String → Option Envelope)
    (dumpE : EnumerateResponseEnvelope → String) (dumpA : AckEnvelope → String)
    (sink : String → Bool) (r : Request) (n : Int) (text : String) (env : Envelope)
    (htls : r.tls = true)
    (hcl : contentLengthVal r.contentLength = Except.ok n)
    (hn : n ≠ 0)
    (hdec : decode (selectedCharset r) (r.body.take n.toNat) = some text)
    (hparse : parse text = some env)
    (ha : env.action = ACTION_EVENTS) (hr : env.resource_uri = none) :
    ((∀ e ∈ env.events, sink e = true) →
       (do_POST decode parse dumpE dumpA sink r).sinkCalls = env.events ∧
       (do_POST decode parse dumpE dumpA sink r).wsResponse =
         some (WSResponse.ack { relates_to := env.id, operation_id := env.operation_id }) ∧
       ∃ resp, (do_POST decode parse dumpE dumpA sink r).response = some resp ∧
         resp.status = 200) ∧
    ((∃ e ∈ env.events, sink e = false) →
       (do_POST decode parse dumpE dumpA sink r).response = none ∧
       (do_POST decode parse dumpE dumpA sink r).wsResponse = none) := by
  rw [do_POST_dispatch decode parse dumpE dumpA sink r n text env htls hcl hn hdec hparse,
      handleEnvelope_events dumpE dumpA sink text env ha hr]
  constructor
  · intro hall
    have hfwd : forwardEvents sink env.events = (env.events, true) :=
      forwardEvents_all sink env.events hall
    have hde : do_events sink env =
        (env.events, some { relates_to := env.id, operation_id := env.operation_id }) := by
      simp [do_events, hfwd]
    rw [hde]
    exact ⟨rfl, rfl, _, rfl, rfl⟩
  · intro hfail
    have hf : (forwardEvents sink env.events).2 = false :=
      forwardEvents_fail sink env.events hfail
    have hde : do_events sink env = ((forwardEvents sink env.events).1, none) := by
      simp [do_events, hf]
    rw [hde]
    exact ⟨rfl, rfl⟩

/-- C2 witness: the two-record events envelope with an all-accepting
sink. -/
theorem C2_events_atomic_ack_witness :
    (do_POST dec0 parseEvents0 dumpE0 dumpA0 sinkTrue req0).sinkCalls = envEvents0.events ∧
    (do_POST dec0 parseEvents0 dumpE0 dumpA0 sinkTrue req0).wsResponse =
      some (WSResponse.ack { relates_to := envEvents0.id, operation_id := envEvents0.operation_id }) ∧
    ∃ resp, (do_POST dec0 parseEvents0 dumpE0 dumpA0 sinkTrue req0).response = some resp ∧
      resp.status = 200 :=
  (C2_events_atomic_ack dec0 parseEvents0 dumpE0 dumpA0 sinkTrue req0 4 "text0" envEvents0
    rfl rfl (by decide) rfl rfl rfl rfl).1 (fun _ _ => rfl)

/-- C5: the acknowledgements for Heartbeat and for a fully ingested
Events request carry RelatesTo equal to the request MessageID and the
request OperationID. -/
theorem C5_ack_correlation (decode : Charset → List Nat → Option String)
    (parse : String → Option Envelope)
    (dumpE : EnumerateResponseEnvelope → String) (dumpA : AckEnvelope → String)
    (sink : String → Bool) (r : Request) (n : Int) (text : String) (env : Envelope)
    (htls : r.tls = true)
    (hcl : contentLengthVal r.contentLength = Except.ok n)
    (hn : n ≠ 0)
    (hdec : decode (selectedCharset r) (r.body.take n.toNat) = some text)
    (hparse : parse text = some env) :
    (env.action = ACTION_HEARTBEAT ∧ env.resource_uri = none →
       ∃ a : AckEnvelope,
         (do_POST decode parse dumpE dumpA sink r).wsResponse = some (WSResponse.ack a) ∧
         a.relates_to = env.id ∧ a.operation_id = env.operation_id) ∧
    (env.action = ACTION_EVENTS ∧ env.resource_uri = none ∧
       (∀ e ∈ env.events, sink e = true) →
       ∃ a : AckEnvelope,
         (do_POST decode parse dumpE dumpA sink r).wsResponse = some (WSResponse.ack a) ∧
         a.relates_to = env.id ∧ a.operation_id = env.operation_id) := by
  constructor
  · rintro ⟨ha, hr⟩
    rw [do_POST_dispatch decode parse dumpE dumpA sink r n text env htls hcl hn hdec hparse,
        handleEnvelope_heartbeat dumpE dumpA sink text env ha hr]
    exact ⟨do_heartbeat env, rfl, rfl, rfl⟩
  · rintro ⟨ha, hr, hall⟩
    rw [do_POST_dispatch decode parse dumpE dumpA sink r n text env htls hcl hn hdec hparse,
        handleEnvelope_events dumpE dumpA sink text env ha hr]
    have hfwd : forwardEvents sink env.events = (env.events, true) :=
      forwardEvents_all sink env.events hall
    have hde : do_events sink env =
        (env.events, some { relates_to := env.id, operation_id := env.operation_id }) := by
      simp [do_events, hfwd]
    rw [hde]
    exact ⟨{ relates_to := env.id, operation_id := env.operation_id }, rfl, rfl, rfl⟩

/-- C5 witness: the concrete heartbeat envelope. -/
theorem C5_ack_correlation_witness :
    ∃ a : AckEnvelope,
      (do_POST dec0 parseHeartbeat0 dumpE0 dumpA0 sinkTrue req0).wsResponse =
        some (WSResponse.ack a) ∧
      a.relates_to = envHeartbeat0.id ∧ a.operation_id = envHeartbeat0.operation_id :=
  (C5_ack_correlation dec0 parseHeartbeat0 dumpE0 dumpA0 sinkTrue req0 4 "text0" envHeartbeat0
    rfl rfl (by decide) rfl rfl).1 ⟨rfl, rfl⟩

/-- C8: a TLS POST carrying Enumerate on the Subscription resource is
answered 200 with the static subscription descriptor (id subscription2,
RenderedText content, 60 second heartbeat, zero batching latency) wrapped
with the request correlation ids. -/
theorem C8_enumerate_response (decode : Charset → List Nat → Option String)
    (parse : String → Option Envelope)
    (dumpE : EnumerateResponseEnvelope → String) (dumpA : AckEnvelope → String)
    (sink : String → Bool) (r : Request) (n : Int) (text : String) (env : Envelope)
    (htls : r.tls = true)
    (hcl : contentLengthVal r.contentLength = Except.ok n)
    (hn : n ≠ 0)
    (hdec : decode (selectedCharset r) (r.body.take n.toNat) = some text)
    (hparse : parse text = some env)
    (ha : env.action = ACTION_ENUMERATE)
    (hr : env.resource_uri = some RESOURCE_URI_SUBSCRIPTION) :
    ∃ resp, (do_POST decode parse dumpE dumpA sink r).response = some resp ∧
      resp.status = 200 ∧
      ∃ e : EnumerateResponseEnvelope,
        (do_POST decode parse dumpE dumpA sink r).wsResponse =
          some (WSResponse.enumerate e) ∧
        e.subscription.id = "subscription2" ∧
        e.subscription.content_format = "RenderedText" ∧
        e.subscription.heartbeat_sec = 60 ∧
        e.subscription.max_time = 0 ∧
        e.relates_to = env.id ∧
        e.operation_id = env.operation_id := by
  rw [do_POST_dispatch decode parse dumpE dumpA sink r n text env htls hcl hn hdec hparse,
      handleEnvelope_enum dumpE dumpA sink text env ha hr]
  exact ⟨_, rfl, rfl, do_enumerate env, rfl, rfl, rfl, rfl, rfl, rfl, rfl⟩

/-- C8 witness: the concrete enumerate envelope. -/
theorem C8_enumerate_response_witness :
    ∃ resp, (do_POST dec0 parseEnum0 dumpE0 dumpA0 sinkTrue req0).response = some resp ∧
      resp.status = 200 ∧
      ∃ e : EnumerateResponseEnvelope,
        (do_POST dec0 parseEnum0 dumpE0 dumpA0 sinkTrue req0).wsResponse =
          some (WSResponse.enumerate e) ∧
        e.subscription.id = "subscription2" ∧
        e.subscription.content_format = "RenderedText" ∧
        e.subscription.heartbeat_sec = 60 ∧
        e.subscription.max_time = 0 ∧
        e.relates_to = envEnum0.id ∧
        e.operation_id = envEnum0.operation_id :=
  C8_enumerate_response dec0 parseEnum0 dumpE0 dumpA0 sinkTrue req0 4 "text0" envEnum0
    rfl rfl (by decide) rfl rfl rfl rfl

/-- C3: dispatch of a well-formed envelope is keyed on the action and
resource URI pair exactly as the table states, and any pair outside the
table is answered 501 with the full envelope text logged, never an
unhandled failure. -/
theorem C3_dispatch_table (decode : Charset → List Nat → Option String)
    (parse : String → Option Envelope)
    (dumpE : EnumerateResponseEnvelope → String) (dumpA : AckEnvelope → String)
    (sink : String → Bool) (r : Request) (n : Int) (text : String) (env : Envelope)
    (htls : r.tls = true)
    (hcl : contentLengthVal r.contentLength = Except.ok n)
    (hn : n ≠ 0)
    (hdec : decode (selectedCharset r) (r.body.take n.toNat) = some text)
    (hparse : parse text = some env) :
    (env.action = ACTION_ENUMERATE ∧ env.resource_uri = some RESOURCE_URI_SUBSCRIPTION →
       (do_POST decode parse dumpE dumpA sink r).wsResponse =
         some (WSResponse.enumerate (do_enumerate env)) ∧
       ∃ resp, (do_POST decode parse dumpE dumpA sink r).response = some resp ∧
         resp.status = 200) ∧
    (env.action = ACTION_HEARTBEAT ∧ env.resource_uri = none →
       (do_POST decode parse dumpE dumpA sink r).wsResponse =
         some (WSResponse.ack (do_heartbeat env)) ∧
       ∃ resp, (do_POST decode parse dumpE dumpA sink r).response = some resp ∧
         resp.status = 200) ∧
    (env.action = ACTION_EVENTS ∧ env.resource_uri = none ∧
       (∀ e ∈ env.events, sink e = true) →
       (do_POST decode parse dumpE dumpA sink r).wsResponse =
         some (WSResponse.ack { relates_to := env.id, operation_id := env.operation_id }) ∧
       ∃ resp, (do_POST decode parse dumpE dumpA sink r).response = some resp ∧
         resp.status = 200) ∧
    (env.action = ACTION_END ∧ env.resource_uri = some RESOURCE_URI_FULL_DUPLEX →
       ∃ resp, (do_POST decode parse dumpE dumpA sink r).response = some resp ∧
         resp.status = 200 ∧ resp.body = "") ∧
    (env.action = ACTION_END_SUBSCRIPTION ∧ env.resource_uri = none →
       ∃ resp, (do_POST decode parse dumpE dumpA sink r).response = some resp ∧
         resp.status = 200 ∧ resp.body = "") ∧
    (¬(env.action = ACTION_END ∧ env.resource_uri = some RESOURCE_URI_FULL_DUPLEX) ∧
     ¬(env.action = ACTION_ENUMERATE ∧ env.resource_uri = some RESOURCE_URI_SUBSCRIPTION) ∧
     ¬(env.action = ACTION_HEARTBEAT ∧ env.resource_uri = none) ∧
     ¬(env.action = ACTION_END_SUBSCRIPTION ∧ env.resource_uri = none) ∧
     ¬(env.action = ACTION_EVENTS ∧ env.resource_uri = none) →
       (do_POST decode parse dumpE dumpA sink r).response =
         some { status := 501
                headers := [("WWW-Authenticate", mutualAuthURI)]
                body := "Not Implemented" } ∧
       (do_POST decode parse dumpE dumpA sink r).loggedNotImplemented = some text) := by
  rw [do_POST_dispatch decode parse dumpE dumpA sink r n text env htls hcl hn hdec hparse]
  refine ⟨?_, ?_, ?_, ?_, ?_, ?_⟩
  · rintro ⟨ha, hr⟩
    rw [handleEnvelope_enum dumpE dumpA sink text env ha hr]
    exact ⟨rfl, _, rfl, rfl⟩
  · rintro ⟨ha, hr⟩
    rw [handleEnvelope_heartbeat dumpE dumpA sink text env ha hr]
    exact ⟨rfl, _, rfl, rfl⟩
  · rintro ⟨ha, hr, hall⟩
    rw [handleEnvelope_events dumpE dumpA sink text env ha hr]
    have hfwd : forwardEvents sink env.events = (env.events, true) :=
      forwardEvents_all sink env.events hall
    have hde : do_events sink env =
        (env.events, some { relates_to := env.id, operation_id := env.operation_id }) := by
      simp [do_events, hfwd]
    rw [hde]
    exact ⟨rfl, _, rfl, rfl⟩
  · rintro ⟨ha, hr⟩
    rw [handleEnvelope_end dumpE dumpA sink text env ha hr]
    exact ⟨_, rfl, rfl, rfl⟩
  · rintro ⟨ha, hr⟩
    rw [handleEnvelope_endsub dumpE dumpA sink text env ha hr]
    exact ⟨_, rfl, rfl, rfl⟩
  · rintro ⟨h1, h2, h3, h4, h5⟩
    rw [handleEnvelope_default dumpE dumpA sink text env h1 h2 h3 h4 h5]
    exact ⟨rfl, rfl⟩

/-- C3 witness: a concrete envelope whose pair is outside the table is
answered 501 with the envelope text logged. -/
theorem C3_dispatch_table_witness :
    (do_POST dec0 parseUnknown0 dumpE0 dumpA0 sinkTrue req0).response =
      some { status := 501
             headers := [("WWW-Authenticate", mutualAuthURI)]
             body := "Not Implemented" } ∧
    (do_POST dec0 parseUnknown0 dumpE0 dumpA0 sinkTrue req0).loggedNotImplemented =
      some "text0" :=
  (C3_dispatch_table dec0 parseUnknown0 dumpE0 dumpA0 sinkTrue req0 4 "text0" envUnknown0
    rfl rfl (by decide) rfl rfl).2.2.2.2.2 (by decide)

/-- C7 counterexample: on a TLS POST whose Content-Type carries the
charset parameter as its third semicolon-separated component, the charset
parameter says UTF-16 yet the code decodes the body as UTF-8, so decoding
as UTF-16 is not equivalent to the charset parameter saying UTF-16. -/
theorem C7_charset_counterexample :
    ¬(((do_POST dec0 parseHeartbeat0 dumpE0 dumpA0 sinkTrue reqCharset0).usedCharset =
        some Charset.utf16) ↔
      charsetParam_spec reqCharset0.contentType = some "UTF-16") := by
  intro hiff
  have hspec : charsetParam_spec reqCharset0.contentType = some "UTF-16" := rfl
  have hused : (do_POST dec0 parseHeartbeat0 dumpE0 dumpA0 sinkTrue reqCharset0).usedCharset =
      some Charset.utf8 := rfl
  have h16 := hiff.mpr hspec
  rw [hused] at h16
  exact absurd h16 (by decide)

/-- C7 (amended): for every authorized POST with a nonzero parsable
Content-Length, the body is decoded as UTF-16 exactly when the second
semicolon-separated component of the Content-Type header, stripped,
starts with charset= and the remainder is exactly UTF-16; it is decoded
as UTF-8 in every other case. -/
theorem C7_charset_amended (decode : Charset → List Nat → Option String)
    (parse : String → Option Envelope)
    (dumpE : EnumerateResponseEnvelope → String) (dumpA : AckEnvelope → String)
    (sink : String → Bool) (r : Request) (n : Int)
    (htls : r.tls = true)
    (hcl : contentLengthVal r.contentLength = Except.ok n)
    (hn : n ≠ 0) :
    (do_POST decode parse dumpE dumpA sink r).usedCharset = some (selectedCharset r) ∧
    (selectedCharset r = Charset.utf16 ↔ parseCharset r.contentType = some "UTF-16") := by
  constructor
  · unfold do_POST
    rw [htls, hcl]
    cases hd : decode (selectedCharset r) (r.body.take n.toNat) with
    | none => simp [hn, hd, decodeFailOutcome]
    | some text =>
      cases hp : parse text with
      | none => simp [hn, hd, hp, parseFailOutcome]
      | some env => simp [hn, hd, hp, mkDispatchOutcome]
  · by_cases hc : parseCharset r.contentType = some "UTF-16"
    · simp [selectedCharset, hc]
    · simp [selectedCharset, hc]

/-- C7 witness: a Content-Type whose second component is the charset
parameter saying UTF-16 selects the UTF-16 decode. -/
theorem C7_charset_amended_witness :
    (do_POST dec0 parseHeartbeat0 dumpE0 dumpA0 sinkTrue
        { tls := true, contentLength := some "4",
          contentType := some "application/soap+xml; charset=UTF-16",
          authorization := none, body := [60, 97, 47, 62] }).usedCharset =
      some (selectedCharset
        { tls := true, contentLength := some "4",
          contentType := some "application/soap+xml; charset=UTF-16",
          authorization := none, body := [60, 97, 47, 62] }) ∧
    (selectedCharset
        { tls := true, contentLength := some "4",
          contentType := some "application/soap+xml; charset=UTF-16",
          authorization := none, body := [60, 97, 47, 62] } = Charset.utf16 ↔
      parseCharset (some "application/soap+xml; charset=UTF-16") = some "UTF-16") :=
  C7_charset_amended dec0 parseHeartbeat0 dumpE0 dumpA0 sinkTrue
    { tls := true, contentLength := some "4",
      contentType := some "application/soap+xml; charset=UTF-16",
      authorization := none, body := [60, 97, 47, 62] } 4 rfl rfl (by decide)

/-- Presence of all four headers sent on the 200 path. -/
theorem soapHeaders200_complete (body : String) :
    ("WWW-Authenticate", mutualAuthURI) ∈ soapHeaders200 body ∧
    ("Content-Type", "application/soap+xml;charset=UTF-8") ∈ soapHeaders200 body ∧
    (∃ v, ("Content-Length", v) ∈ soapHeaders200 body) ∧
    ("Connection", "Keep-Alive") ∈ soapHeaders200 body := by
  refine ⟨?_, ?_, ⟨toString body.utf8ByteSize, ?_⟩, ?_⟩ <;> simp [soapHeaders200]

/-- Header guarantees of any response produced by the dispatch chain. -/
theorem handleEnvelope_headers (dumpE : EnumerateResponseEnvelope → String)
    (dumpA : AckEnvelope → String) (sink : String → Bool)
    (text : String) (env : Envelope) (resp : HttpResponse)
    (h : (handleEnvelope dumpE dumpA sink text env).response = some resp) :
    ("WWW-Authenticate", mutualAuthURI) ∈ resp.headers ∧
    (resp.status = 200 →
      ("Content-Type", "application/soap+xml;charset=UTF-8") ∈ resp.headers ∧
      (∃ v, ("Content-Length", v) ∈ resp.headers) ∧
      ("Connection", "Keep-Alive") ∈ resp.headers) := by
  unfold handleEnvelope at h
  split at h
  · rw [ok200, Option.some.injEq] at h
    rw [← h]
    exact ⟨(soapHeaders200_complete _).1,
      fun _ => ⟨(soapHeaders200_complete _).2.1, (soapHeaders200_complete _).2.2.1,
        (soapHeaders200_complete _).2.2.2⟩⟩
  · split at h
    · rw [ok200, Option.some.injEq] at h
      rw [← h]
      exact ⟨(soapHeaders200_complete _).1,
        fun _ => ⟨(soapHeaders200_complete _).2.1, (soapHeaders200_complete _).2.2.1,
          (soapHeaders200_complete _).2.2.2⟩⟩
    · split at h
      · rw [ok200, Option.some.injEq] at h
        rw [← h]
        exact ⟨(soapHeaders200_complete _).1,
          fun _ => ⟨(soapHeaders200_complete _).2.1, (soapHeaders200_complete _).2.2.1,
            (soapHeaders200_complete _).2.2.2⟩⟩
      · split at h
        · rw [ok200, Option.some.injEq] at h
          rw [← h]
          exact ⟨(soapHeaders200_complete _).1,
            fun _ => ⟨(soapHeaders200_complete _).2.1, (soapHeaders200_complete _).2.2.1,
              (soapHeaders200_complete _).2.2.2⟩⟩
        · split at h
          · split at h
            · rw [ok200, Option.some.injEq] at h
              rw [← h]
              exact ⟨(soapHeaders200_complete _).1,
                fun _ => ⟨(soapHeaders200_complete _).2.1, (soapHeaders200_complete _).2.2.1,
                  (soapHeaders200_complete _).2.2.2⟩⟩
            · exact absurd h (by simp)
          · rw [Option.some.injEq] at h
            rw [← h]
            refine ⟨by simp, fun h200 => ?_⟩
            exact absurd h200 (by simp)

/-- C9 counterexample: the 405 reply to GET is a reply the server sends,
and it carries no WWW-Authenticate header at all. -/
theorem C9_get_counterexample :
    do_GET.status = 405 ∧ ("WWW-Authenticate", mutualAuthURI) ∉ do_GET.headers := by
  exact ⟨rfl, by simp [do_GET]⟩

/-- C9 (amended): every reply written by the POST handler carries the
mutual-TLS WWW-Authenticate header, and every 200 reply additionally
carries the SOAP Content-Type, a Content-Length and Connection
Keep-Alive; the 405 replies to GET and PUT carry no explicit headers, so
no WWW-Authenticate. -/
theorem C9_headers_amended (decode : Charset → List Nat → Option String)
    (parse : String → Option Envelope)
    (dumpE : EnumerateResponseEnvelope → String) (dumpA : AckEnvelope → String)
    (sink : String → Bool) (r : Request) (resp : HttpResponse)
    (h : (do_POST decode parse dumpE dumpA sink r).response = some resp) :
    (("WWW-Authenticate", mutualAuthURI) ∈ resp.headers ∧
     (resp.status = 200 →
       ("Content-Type", "application/soap+xml;charset=UTF-8") ∈ resp.headers ∧
       (∃ v, ("Content-Length", v) ∈ resp.headers) ∧
       ("Connection", "Keep-Alive") ∈ resp.headers)) ∧
    ("WWW-Authenticate", mutualAuthURI) ∉ do_GET.headers ∧
    ("WWW-Authenticate", mutualAuthURI) ∉ do_PUT.headers := by
  refine ⟨?_, by simp [do_GET], by simp [do_PUT]⟩
  unfold do_POST at h
  split at h
  · split at h
    · exact absurd h (by simp [badLengthOutcome])
    · split at h
      · rw [lengthRequiredOutcome, Option.some.injEq] at h
        rw [← h]
        refine ⟨by simp, fun h200 => ?_⟩
        exact absurd h200 (by simp)
      · split at h
        · exact absurd h (by simp [decodeFailOutcome])
        · split at h
          · exact absurd h (by simp [parseFailOutcome])
          · rw [mkDispatchOutcome] at h
            exact handleEnvelope_headers dumpE dumpA sink _ _ resp h
  · rw [unauthorizedOutcome, Option.some.injEq] at h
    rw [← h]
    refine ⟨by simp, fun h200 => ?_⟩
    exact absurd h200 (by simp)

/-- C9 witness: the concrete heartbeat request yields a 200 reply whose
headers satisfy the amended claim. -/
theorem C9_headers_amended_witness :
    (("WWW-Authenticate", mutualAuthURI) ∈
        (HttpResponse.mk 200 (soapHeaders200 "ack-xml") "ack-xml").headers ∧
     ((HttpResponse.mk 200 (soapHeaders200 "ack-xml") "ack-xml").status = 200 →
       ("Content-Type", "application/soap+xml;charset=UTF-8") ∈
         (HttpResponse.mk 200 (soapHeaders200 "ack-xml") "ack-xml").headers ∧
       (∃ v, ("Content-Length", v) ∈
         (HttpResponse.mk 200 (soapHeaders200 "ack-xml") "ack-xml").headers) ∧
       ("Connection", "Keep-Alive") ∈
         (HttpResponse.mk 200 (soapHeaders200 "ack-xml") "ack-xml").headers)) ∧
    ("WWW-Authenticate", mutualAuthURI) ∉ do_GET.headers ∧
    ("WWW-Authenticate", mutualAuthURI) ∉ do_PUT.headers :=
  C9_headers_amended dec0 parseHeartbeat0 dumpE0 dumpA0 sinkTrue req0
    (HttpResponse.mk 200 (soapHeaders200 "ack-xml") "ack-xml") rfl

end Owinec
